import Mathlib

/-!
Verification of the school asset-loan portal (items, borrowing requests,
role-based row policies, reports).  The definitions below are a shallow
embedding of the repository's source:

* the schema and row-level-security policies come from
  `supabase/migrations/20251106232919_*.sql`;
* `handleApproveReject` embeds the handler in `src/pages/Dashboard.tsx`
  (lines 314-354);
* `handleBorrowRequest` embeds the handler in `src/pages/Items.tsx`
  (lines 100-138);
* the report aggregations embed `src/pages/Reports.tsx` (`fetchReportData`
  and the rendered percentage expressions) and `src/pages/Dashboard.tsx`
  (`fetchStats`).

Timestamps (`TIMESTAMP WITH TIME ZONE` columns, JS `Date` values) are
embedded as `Nat` epoch instants; JS floating-point arithmetic on the small
request counts is embedded as exact rational arithmetic.
-/

/-- The `public.item_status` enum: 'tersedia', 'dipinjam', 'overdue', 'rusak'. -/
inductive ItemStatus where
  | tersedia
  | dipinjam
  | overdue
  | rusak
deriving DecidableEq, Repr

/-- The `public.request_status` enum: 'pending', 'approved', 'rejected', 'returned'. -/
inductive RequestStatus where
  | pending
  | approved
  | rejected
  | returned
deriving DecidableEq, Repr

/-- The `public.app_role` enum: 'admin', 'guru', 'siswa'. -/
inductive Role where
  | admin
  | guru
  | siswa
deriving DecidableEq, Repr

/-- A row of `public.items` (migration lines 35-44). -/
structure Item where
  id : String
  name : String
  type : String
  room_name : String
  status : ItemStatus
  condition_notes : Option String := none
deriving DecidableEq, Repr

/-- A row of `public.borrowing_requests` (migration lines 47-63). -/
structure BorrowingRequest where
  id : String
  item_id : String
  borrower_id : String
  purpose : String
  requested_at : Nat
  start_time : Nat
  end_time : Nat
  status : RequestStatus
  approved_by : Option String := none
  approved_at : Option Nat := none
  approval_notes : Option String := none
  returned_at : Option Nat := none
  return_condition : Option String := none
deriving DecidableEq, Repr

/-- A row of `public.user_roles` (migration lines 26-32). -/
structure UserRole where
  user_id : String
  role : Role
deriving DecidableEq, Repr

/-- A row of `public.activity_logs` (migration lines 66-73); `action` is a
free-text column holding 'request' / 'approve' / 'reject' / ... -/
structure ActivityLog where
  request_id : String
  action : String
  performed_by : String
  notes : String
deriving DecidableEq, Repr

/-- The database state visible to the handlers. -/
structure DB where
  items : List Item
  requests : List BorrowingRequest
  user_roles : List UserRole
  logs : List ActivityLog
deriving DecidableEq, Repr

/-- The SQL function `public.has_role(_user_id, _role)` (migration lines 83-95):
`EXISTS (SELECT 1 FROM user_roles WHERE user_id = _user_id AND role = _role)`. -/
def has_role (db : DB) (uid : String) (r : Role) : Bool :=
  db.user_roles.any fun ur => ur.user_id == uid && ur.role == r

/-- The RLS policy "Admin and guru can update requests" (migration lines 137-139):
`USING (has_role(auth.uid(), 'admin') OR has_role(auth.uid(), 'guru'))`. -/
def requestsUpdatePolicy (db : DB) (uid : String) : Bool :=
  has_role db uid .admin || has_role db uid .guru

/-- An UPDATE on `borrowing_requests` filtered by `id = rid`, as executed
under row-level security: rows whose USING predicate fails are invisible to
the update, so for an unauthorized caller the statement succeeds but
modifies no row. -/
def rlsUpdateRequests (db : DB) (uid rid : String)
    (upd : BorrowingRequest → BorrowingRequest) : DB :=
  { db with
    requests := db.requests.map fun r =>
      if requestsUpdatePolicy db uid && r.id == rid then upd r else r }

/-- An INSERT into `borrowing_requests` under the policy "Users can create
their own requests" (migration lines 133-135): `WITH CHECK (borrower_id =
auth.uid())`; a row failing the check makes the insert error out (`none`). -/
def rlsInsertRequest (db : DB) (uid : String) (row : BorrowingRequest) :
    Option DB :=
  if row.borrower_id == uid then
    some { db with requests := db.requests ++ [row] }
  else
    none

/-- The SQL operations row policies distinguish. -/
inductive SqlOp where
  | select
  | insert
  | update
  | delete
deriving DecidableEq, Repr

/-- The row policies on `public.activity_logs` (migration lines 141-148):
SELECT `USING (true)` and INSERT `WITH CHECK (true)` are the only policies;
with row-level security enabled, UPDATE and DELETE have no permitting
policy and are denied for every caller. -/
def activityLogsPolicy (db : DB) (uid : String) (op : SqlOp)
    (row : ActivityLog) : Bool :=
  match op with
  | .select => true
  | .insert => true
  | .update => false
  | .delete => false

/-- The fields of the selected request that `handleApproveReject` reads:
`selectedRequest.id` and `selectedRequest.items.name`. -/
structure SelectedRequest where
  id : String
  itemName : String
deriving DecidableEq, Repr

/-- Embeds `handleApproveReject` (Dashboard.tsx lines 314-354).  Three independent
calls: (1) update the request row (status, approved_by, approved_at,
approval_notes) where `id = requestId`; (2) when approving and a request is
selected, update `items` set status='dipinjam' where `id =
selectedRequest.items.name` — note the filter compares the item *id* column
against the item's *name* (line 339); (3) insert one activity-log row with
action 'approve' or 'reject'.  No availability check is made and no
conflict is reported. -/
def handleApproveReject (db : DB) (requestId : String) (st : RequestStatus)
    (sel : Option SelectedRequest) (callerId : String) (now : Nat)
    (approvalNotes : String) : DB :=
  let requests := db.requests.map fun r =>
    if r.id == requestId then
      { r with
        status := st
        approved_by := some callerId
        approved_at := some now
        approval_notes := some approvalNotes }
    else r
  let items :=
    match st, sel with
    | .approved, some s =>
        db.items.map fun i =>
          if i.id == s.itemName then { i with status := .dipinjam } else i
    | _, _ => db.items
  let logs := db.logs ++
    [{ request_id := requestId
       action := if st == .approved then "approve" else "reject"
       performed_by := callerId
       notes := approvalNotes }]
  { db with requests := requests, items := items, logs := logs }

/-- Outcome reported by `handleBorrowRequest` via toast. -/
inductive CreateResult where
  | missingFields
  | insertFailed
  | created
deriving DecidableEq, Repr

/-- Embeds `handleBorrowRequest` (Items.tsx lines 100-138).  The only client-side
validation is the truthiness check `!selectedItem || !purpose || !startTime
|| !endTime` (an unset datetime field is the empty string, embedded as
`none`).  The insert then stores the given window with the schema default
status 'pending'; the foreign key `item_id REFERENCES items(id)` (migration
line 49) makes the insert fail when the asset does not exist, in which case
the handler returns before logging.  On success one activity-log row with
action 'request' is inserted, its `request_id` re-queried as the most
recently created request (the row just inserted, in this sequential model). -/
def handleBorrowRequest (db : DB) (uid : String) (selectedItem : Option Item)
    (purpose : String) (startTime endTime : Option Nat) (newId : String)
    (now : Nat) : CreateResult × DB :=
  match selectedItem, startTime, endTime with
  | some item, some st, some et =>
    if purpose == "" then (.missingFields, db)
    else if db.items.any (fun i => i.id == item.id) then
      let row : BorrowingRequest :=
        { id := newId
          item_id := item.id
          borrower_id := uid
          purpose := purpose
          requested_at := now
          start_time := st
          end_time := et
          status := .pending }
      let db' := { db with requests := db.requests ++ [row] }
      let db'' := { db' with
        logs := db'.logs ++
          [{ request_id := newId
             action := "request"
             performed_by := uid
             notes := "Mengajukan peminjaman " ++ item.name }] }
      (.created, db'')
    else (.insertFailed, db)
  | _, _, _ => (.missingFields, db)

/-- Reads a single request row by id: `SELECT * FROM borrowing_requests
WHERE id = rid`. -/
def readRequest (db : DB) (rid : String) : Option BorrowingRequest :=
  db.requests.find? fun r => r.id == rid

/-- The filter of Reports.tsx lines 99-103: `r.status === 'approved'
&& !r.returned_at && new Date(r.end_time) < now`. -/
def isOverdueLive (now : Nat) (r : BorrowingRequest) : Bool :=
  r.status == .approved && r.returned_at == none && r.end_time < now

/-- The `overdueItems` statistic of Reports.tsx `fetchReportData`. -/
def reportsOverdueCount (db : DB) (now : Nat) : Nat :=
  (db.requests.filter (isOverdueLive now)).length

/-- The `overdueItems` statistic of Dashboard.tsx `fetchStats` (lines
47-54): `items.filter(i => i.status === 'overdue').length` — a count of
catalog items carrying the stored 'overdue' item status. -/
def dashboardOverdueItems (db : DB) : Nat :=
  (db.items.filter fun i => i.status == .overdue).length

/-- Modelled from the spec (§4.1): a request is overdue when
`status == approved AND returned_at IS NULL AND now > end_time`. -/
def specOverdue (now : Nat) (r : BorrowingRequest) : Bool :=
  r.status == .approved && r.returned_at == none && now > r.end_time

/-- Modelled from the spec: the overdue count as the live predicate
evaluated over the ledger at read time. -/
def specOverdueCount (db : DB) (now : Nat) : Nat :=
  (db.requests.filter (specOverdue now)).length

/-- JS `Math.round((a / t) * 100)` for the non-negative counts the reports
divide; `Math.round x = ⌊x + 1/2⌋`, so over exact arithmetic the value
is `⌊(200a + t) / 2t⌋`. -/
def jsRound100 (approved total : Nat) : Nat :=
  (200 * approved + total) / (2 * total)

/-- The overall approval percentage rendered by Reports.tsx lines 280-285:
`totalRequests > 0 ? Math.round((approvedRequests/totalRequests)*100) : '0%'`. -/
def approvalRatePct (approved total : Nat) : Nat :=
  if 0 < total then jsRound100 approved total else 0

/-- One row of the per-department statistics table. -/
structure DeptStats where
  jurusan : String
  totalRequests : Nat
  approvedRequests : Nat
deriving DecidableEq, Repr

/-- What the department-statistics query selects from each borrowing
request: its status and the borrower profile's `jurusan` (nullable). -/
structure DeptRecord where
  status : RequestStatus
  jurusan : Option String
deriving DecidableEq, Repr

/-- The grouping key of Reports.tsx line 163:
`record.profiles?.jurusan || 'Tidak Diketahui'`. -/
def deptKey (r : DeptRecord) : String :=
  r.jurusan.getD "Tidak Diketahui"

/-- One step of the `deptStatsData?.forEach` loop (Reports.tsx lines
162-176): create the department's entry on first sight (totals start at
this record), otherwise bump the existing entry in place. -/
def bumpDept (acc : List DeptStats) (k : String) (isApproved : Bool) :
    List DeptStats :=
  if acc.any (fun d => d.jurusan == k) then
    acc.map fun d =>
      if d.jurusan == k then
        { d with
          totalRequests := d.totalRequests + 1
          approvedRequests := d.approvedRequests + (if isApproved then 1 else 0) }
      else d
  else
    acc ++ [{ jurusan := k
              totalRequests := 1
              approvedRequests := if isApproved then 1 else 0 }]

/-- The department rows accumulated from the ledger records, in first-seen
order (JS `Map` preserves insertion order). -/
def buildDeptStats (records : List DeptRecord) : List DeptStats :=
  records.foldl (fun acc r => bumpDept acc (deptKey r) (r.status == .approved)) []

/-- The rendered department rows (Reports.tsx line 178): sorted by
`b.totalRequests - a.totalRequests` (descending). -/
def departmentStats (records : List DeptRecord) : List DeptStats :=
  (buildDeptStats records).mergeSort fun a b => b.totalRequests ≤ a.totalRequests

/-- The per-department approval percentage rendered by Reports.tsx line
445: `Math.round((dept.approvedRequests / dept.totalRequests) * 100)`,
with no guard on `totalRequests`. -/
def deptRatePct (d : DeptStats) : Nat :=
  jsRound100 d.approvedRequests d.totalRequests

/-- The §8 invariant: every approved request's referenced asset has status
'dipinjam' (loaned) or 'overdue'. -/
def approvedImpliesLoaned (db : DB) : Bool :=
  db.requests.all fun r =>
    !(r.status == .approved) ||
      db.items.all fun i =>
        !(i.id == r.item_id) || (i.status == .dipinjam || i.status == .overdue)

/-- A currently available key. -/
def item0 : Item :=
  { id := "item-1", name := "Kunci Lab 1", type := "kunci",
    room_name := "Lab 1", status := .tersedia }

/-- A pending request for `item0`. -/
def req0 : BorrowingRequest :=
  { id := "req-1", item_id := "item-1", borrower_id := "siswa-1",
    purpose := "Kelas", requested_at := 0, start_time := 10, end_time := 20,
    status := .pending }

/-- A state with one available item, one pending request for it, an admin
and a student. -/
def db0 : DB :=
  { items := [item0]
    requests := [req0]
    user_roles := [{ user_id := "admin-1", role := .admin },
                   { user_id := "siswa-1", role := .siswa }]
    logs := [] }

/-- What the approval dialog selects for `req0`. -/
def sel0 : SelectedRequest := { id := "req-1", itemName := "Kunci Lab 1" }

/-- A projector that is currently loaned out (not available). -/
def item1 : Item :=
  { id := "item-2", name := "Infokus A", type := "infokus",
    room_name := "R2", status := .dipinjam }

/-- A pending request for the unavailable `item1`. -/
def req1 : BorrowingRequest :=
  { id := "req-2", item_id := "item-2", borrower_id := "siswa-1",
    purpose := "Rapat", requested_at := 0, start_time := 10, end_time := 20,
    status := .pending }

/-- A state whose only item is already loaned out. -/
def db1 : DB :=
  { items := [item1]
    requests := [req1]
    user_roles := [{ user_id := "admin-1", role := .admin }]
    logs := [] }

/-- What the approval dialog selects for `req1`. -/
def sel1 : SelectedRequest := { id := "req-2", itemName := "Infokus A" }

/-- A state with an approved, unreturned request whose window has passed
(end_time 5), while no catalog item carries the stored 'overdue' status. -/
def db5 : DB :=
  { items := [{ id := "i1", name := "Kunci R5", type := "kunci",
                room_name := "R5", status := .dipinjam }]
    requests := [{ id := "r5", item_id := "i1", borrower_id := "s5",
                   purpose := "Ujian", requested_at := 0, start_time := 1,
                   end_time := 5, status := .approved,
                   approved_by := some "a1", approved_at := some 2 }]
    user_roles := []
    logs := [] }

/-- An existing available item for the create-request scenarios. -/
def citem : Item :=
  { id := "it-9", name := "Infokus B", type := "infokus",
    room_name := "R9", status := .tersedia }

/-- A state holding only `citem`. -/
def cdb : DB :=
  { items := [citem], requests := [], user_roles := [], logs := [] }

/-- A state where caller s1 holds only the student role and a9 is an
admin. -/
def dbS : DB :=
  { items := [], requests := [],
    user_roles := [{ user_id := "s1", role := .siswa },
                   { user_id := "a9", role := .admin }],
    logs := [] }

/-- A request row naming s2 as borrower (for inserts attempted by other
callers). -/
def rowS : BorrowingRequest :=
  { id := "r2", item_id := "it-9", borrower_id := "s2", purpose := "x",
    requested_at := 0, start_time := 1, end_time := 2, status := .pending }

theorem bumpDept_total_pos (acc : List DeptStats) (k : String) (b : Bool)
    (h : ∀ d ∈ acc, 1 ≤ d.totalRequests) :
    ∀ d ∈ bumpDept acc k b, 1 ≤ d.totalRequests := by
  intro d hd
  unfold bumpDept at hd
  split at hd
  · obtain ⟨x, hx, rfl⟩ := List.mem_map.mp hd
    split
    · simp
    · exact h x hx
  · rcases List.mem_append.mp hd with hx | hx
    · exact h d hx
    · simp only [List.mem_singleton] at hx
      subst hx
      simp

theorem bumpDept_jurusan (acc : List DeptStats) (k : String) (b : Bool) :
    ∀ d ∈ bumpDept acc k b, d.jurusan ∈ acc.map DeptStats.jurusan ∨ d.jurusan = k := by
  intro d hd
  unfold bumpDept at hd
  split at hd
  · obtain ⟨x, hx, rfl⟩ := List.mem_map.mp hd
    left
    split
    · exact List.mem_map.mpr ⟨x, hx, rfl⟩
    · exact List.mem_map.mpr ⟨x, hx, rfl⟩
  · rcases List.mem_append.mp hd with hx | hx
    · exact Or.inl (List.mem_map.mpr ⟨d, hx, rfl⟩)
    · simp only [List.mem_singleton] at hx
      subst hx
      exact Or.inr rfl

theorem buildDeptStats_fold_inv (l : List DeptRecord) :
    ∀ acc : List DeptStats, (∀ d ∈ acc, 1 ≤ d.totalRequests) →
      ∀ d ∈ l.foldl (fun a r => bumpDept a (deptKey r) (r.status == .approved)) acc,
        1 ≤ d.totalRequests ∧
          (d.jurusan ∈ acc.map DeptStats.jurusan ∨ ∃ r ∈ l, deptKey r = d.jurusan) := by
  induction l with
  | nil =>
    intro acc h d hd
    simp only [List.foldl_nil] at hd
    exact ⟨h d hd, Or.inl (List.mem_map.mpr ⟨d, hd, rfl⟩)⟩
  | cons r l ih =>
    intro acc h d hd
    simp only [List.foldl_cons] at hd
    obtain ⟨hpos, hmem⟩ := ih (bumpDept acc (deptKey r) (r.status == .approved))
      (bumpDept_total_pos _ _ _ h) d hd
    refine ⟨hpos, ?_⟩
    rcases hmem with hm | ⟨r', hr', hk⟩
    · obtain ⟨x, hx, hxj⟩ := List.mem_map.mp hm
      rcases bumpDept_jurusan acc (deptKey r) (r.status == .approved) x hx with h1 | h1
      · exact Or.inl (by rw [← hxj]; exact h1)
      · exact Or.inr ⟨r, List.mem_cons_self r l, by rw [← h1, hxj]⟩
    · exact Or.inr ⟨r', List.mem_cons_of_mem _ hr', hk⟩

theorem departmentStats_total_pos (records : List DeptRecord) (d : DeptStats)
    (hd : d ∈ departmentStats records) :
    1 ≤ d.totalRequests ∧ ∃ r ∈ records, deptKey r = d.jurusan := by
  have hd' : d ∈ buildDeptStats records := by
    unfold departmentStats at hd
    exact (List.mergeSort_perm (buildDeptStats records) _).mem_iff.mp hd
  obtain ⟨h1, h2⟩ := buildDeptStats_fold_inv records [] (by simp) d hd'
  refine ⟨h1, ?_⟩
  rcases h2 with hm | h2
  · simp at hm
  · exact h2

theorem jsRound100_eq_round (a t : ℕ) (ht : 0 < t) :
    (jsRound100 a t : ℤ) = round ((100 * (a : ℚ)) / (t : ℚ)) := by
  have ht' : (t : ℚ) ≠ 0 := Nat.cast_ne_zero.mpr ht.ne'
  rw [round_eq]
  have h : (100 * (a : ℚ)) / (t : ℚ) + 1 / 2
      = ((200 * a + t : ℕ) : ℚ) / ((2 * t : ℕ) : ℚ) := by
    push_cast
    field_simp
    ring
  rw [h, Rat.floor_natCast_div_natCast]
  unfold jsRound100
  exact Int.natCast_div (200 * a + t) (2 * t)

/-- C1: the spec requires approval of a pending request for an available
asset to set the asset to 'dipinjam' and the request to 'approved'
atomically, and to reject with a conflict when the asset is unavailable.
The code does neither: at `db0` (asset 'item-1' available) the approval
marks the request approved while the asset stays 'tersedia' (the item
update filters the id column by the item's *name*, Dashboard.tsx line 339,
matching no row), and at `db1` (asset already 'dipinjam') the approval
still succeeds and mutates the request, with no conflict error. -/
theorem c1_approve_not_atomic :
    (((handleApproveReject db0 "req-1" .approved (some sel0) "admin-1" 100 "ok").requests.map
        fun r => r.status) = [.approved] ∧
      ((handleApproveReject db0 "req-1" .approved (some sel0) "admin-1" 100 "ok").items.map
        fun i => i.status) = [.tersedia]) ∧
    ((readRequest (handleApproveReject db1 "req-2" .approved (some sel1) "admin-1" 100 "") "req-2").map
        fun r => r.status) = some .approved := by
  decide

/-- C2: the invariant "status == approved implies the referenced asset's
status ∈ {dipinjam, overdue}" holds at `db0` but is broken by the code's
own approve operation: the request becomes approved while its asset keeps
status 'tersedia'. -/
theorem c2_invariant_broken_by_approve :
    approvedImpliesLoaned db0 = true ∧
    approvedImpliesLoaned
      (handleApproveReject db0 "req-1" .approved (some sel0) "admin-1" 100 "ok") = false := by
  decide

/-- C3: a caller holding only the 'siswa' role cannot change any borrowing
request — the UPDATE policy's USING predicate fails, so the statement
touches no row regardless of ownership — and *any* caller (`caller`
carries no role hypothesis, so admins and gurus are included) inserting a
request whose borrower_id is not their own identity is rejected by the
INSERT policy's WITH CHECK. -/
theorem c3_student_denied (db : DB) (uid caller rid : String)
    (upd : BorrowingRequest → BorrowingRequest) (row : BorrowingRequest)
    (hs : has_role db uid .siswa = true)
    (ha : has_role db uid .admin = false)
    (hg : has_role db uid .guru = false)
    (hb : row.borrower_id ≠ caller) :
    rlsUpdateRequests db uid rid upd = db ∧
    rlsInsertRequest db caller row = none := by
  constructor
  · unfold rlsUpdateRequests requestsUpdatePolicy
    rw [ha, hg]
    simp
  · simp [rlsInsertRequest, hb]

/-- Witness for C3 at a concrete state: student s1 cannot approve request
r1, and even the admin a9 cannot insert a request naming s2 as borrower. -/
theorem c3_student_denied_witness :
    rlsUpdateRequests dbS "s1" "r1" (fun r => { r with status := .approved }) = dbS ∧
    rlsInsertRequest dbS "a9" rowS = none :=
  c3_student_denied dbS "s1" "a9" "r1" (fun r => { r with status := .approved }) rowS
    (by decide) (by decide) (by decide) (by decide)

/-- C4, counterexample: the create operation performs no check that
end_time is strictly after start_time.  With a non-empty purpose and an
existing asset but start_time 10 and end_time 8, the request is created
(and stored with the inverted window) instead of being rejected. -/
theorem c4_counterexample :
    (handleBorrowRequest cdb "u1" (some citem) "Presentasi" (some 10) (some 8) "r9" 3).1
      = CreateResult.created ∧
    ((readRequest (handleBorrowRequest cdb "u1" (some citem) "Presentasi" (some 10) (some 8) "r9" 3).2 "r9").map
      fun r => (r.start_time, r.end_time, r.status)) = some (10, 8, .pending) := by
  decide

/-- C4 as amended: the create operation rejects before any mutation when a
field is missing or the purpose is empty, and when the referenced asset
does not exist (foreign-key failure); it performs no validation of the
time window, so a row is created exactly when the fields are present, the
purpose is non-empty and the asset exists — regardless of whether end_time
is after start_time. -/
theorem c4_create_validation (db : DB) (uid : String) (item : Item)
    (purpose : String) (st et : Nat) (newId : String) (now : Nat) :
    ((handleBorrowRequest db uid (some item) purpose (some st) (some et) newId now).1
        = CreateResult.created
      ↔ (purpose ≠ "" ∧ db.items.any (fun i => i.id == item.id) = true)) ∧
    ((handleBorrowRequest db uid (some item) purpose (some st) (some et) newId now).1
        ≠ CreateResult.created →
      (handleBorrowRequest db uid (some item) purpose (some st) (some et) newId now).2 = db) ∧
    handleBorrowRequest db uid none purpose (some st) (some et) newId now
      = (CreateResult.missingFields, db) := by
  refine ⟨?_, ?_, rfl⟩
  · unfold handleBorrowRequest
    by_cases hp : purpose = ""
    · simp [hp]
    · have hp' : (purpose == "") = false := beq_eq_false_iff_ne.mpr hp
      by_cases ha : db.items.any (fun i => i.id == item.id)
      · simp [hp', ha, hp]
      · simp only [Bool.not_eq_true] at ha
        simp [hp', ha, hp]
  · intro hne
    unfold handleBorrowRequest at hne ⊢
    by_cases hp : (purpose == "")
    · simp [hp]
    · simp only [Bool.not_eq_true] at hp
      by_cases ha : db.items.any (fun i => i.id == item.id)
      · simp [hp, ha] at hne
      · simp only [Bool.not_eq_true] at ha
        simp [hp, ha]

/-- Witness for C4 at a concrete input: a complete, well-formed request on
an existing asset is created. -/
theorem c4_create_validation_witness :
    (handleBorrowRequest cdb "u1" (some citem) "Kuliah" (some 8) (some 10) "r1" 5).1
      = CreateResult.created :=
  (c4_create_validation cdb "u1" citem "Kuliah" 8 10 "r1" 5).1.mpr
    ⟨by decide, by decide⟩

/-- C5, counterexample: at `db5` (one approved, unreturned request whose
end_time 5 is past at now = 10, no item row with stored status 'overdue'),
the Reports page computes 1 overdue via the live predicate, while the
Dashboard's 'Terlambat' statistic reports 0 — it counts items carrying the
stored 'overdue' status, not the live predicate over the ledger. -/
theorem c5_counterexample :
    reportsOverdueCount db5 10 = 1 ∧
    dashboardOverdueItems db5 = 0 ∧
    dashboardOverdueItems db5 ≠ specOverdueCount db5 10 := by
  decide

/-- C5 as amended: the Reports read path computes its overdue count as the
live predicate (status = approved, returned_at null, now past end_time)
over the ledger at read time — it coincides with the spec's predicate and
ignores the stored item statuses — while the Dashboard's overdue statistic
is a count of catalog items with stored status 'overdue', independent of
the ledger. -/
theorem c5_overdue_read_paths (db : DB) (now : Nat)
    (reqs : List BorrowingRequest) (its : List Item) :
    reportsOverdueCount db now = specOverdueCount db now ∧
    reportsOverdueCount { db with items := its } now = reportsOverdueCount db now ∧
    dashboardOverdueItems { db with requests := reqs } = dashboardOverdueItems db := by
  exact ⟨rfl, rfl, rfl⟩

/-- C6: every reported approval percentage equals `round(100·approved /
total)` over exact arithmetic — the overall rate when the total is
positive, and the per-department rate of every rendered department row
(whose total is positive by construction); when the total is 0 the overall
path reports 0% without dividing; 6 approved out of 10 reports 60%. -/
theorem c6_approval_rate (a t : ℕ) (records : List DeptRecord) (d : DeptStats)
    (hd : d ∈ departmentStats records) :
    (0 < t → (approvalRatePct a t : ℤ) = round ((100 * (a : ℚ)) / (t : ℚ))) ∧
    approvalRatePct a 0 = 0 ∧
    approvalRatePct 6 10 = 60 ∧
    (deptRatePct d : ℤ)
      = round ((100 * (d.approvedRequests : ℚ)) / (d.totalRequests : ℚ)) := by
  refine ⟨?_, by simp [approvalRatePct], by decide, ?_⟩
  · intro ht
    unfold approvalRatePct
    rw [if_pos ht]
    exact jsRound100_eq_round a t ht
  · have hpos := (departmentStats_total_pos records d hd).1
    unfold deptRatePct
    exact jsRound100_eq_round _ _ hpos

/-- Witness for C6: 6 approved of 10 total reports 60%, applied at a
one-record department table. -/
theorem c6_approval_rate_witness : approvalRatePct 6 10 = 60 :=
  (c6_approval_rate 6 10 [{ status := .approved, jurusan := some "ti" }]
    { jurusan := "ti", totalRequests := 1, approvedRequests := 1 }
    (by unfold departmentStats
        exact (List.mergeSort_perm _ _).mem_iff.mpr (by decide))).2.2.1

/-- C10: every rendered department row was built from at least one ledger
record of that department, so its totalRequests is at least 1 and the
unguarded division in its approval rate never divides by zero; a
department with no request yields no row. -/
theorem c10_dept_rows_nonzero (records : List DeptRecord) (d : DeptStats)
    (hd : d ∈ departmentStats records) :
    1 ≤ d.totalRequests ∧ ∃ r ∈ records, deptKey r = d.jurusan :=
  departmentStats_total_pos records d hd

/-- Witness for C10 at a one-record table: the single row has total 1 and
stems from the 'trkj' record. -/
theorem c10_dept_rows_nonzero_witness :
    1 ≤ (DeptStats.mk "trkj" 1 0).totalRequests ∧
      ∃ r ∈ [DeptRecord.mk .pending (some "trkj")],
        deptKey r = (DeptStats.mk "trkj" 1 0).jurusan :=
  c10_dept_rows_nonzero [DeptRecord.mk .pending (some "trkj")]
    (DeptStats.mk "trkj" 1 0)
    (by unfold departmentStats
        exact (List.mergeSort_perm _ _).mem_iff.mpr (by decide))

/-- C7: rejecting a pending request sets its status to 'rejected' and
records the approver and approval time, leaves any request with a
different id untouched, leaves every asset's status unchanged, and appends
exactly one activity-log entry with action 'reject'. -/
theorem c7_reject_frame (db : DB) (rid caller notes : String) (now : Nat)
    (sel : Option SelectedRequest) (r : BorrowingRequest)
    (hr : r ∈ db.requests) (hid : r.id = rid) (hp : r.status = .pending) :
    (∀ q ∈ (handleApproveReject db rid .rejected sel caller now notes).requests,
        q.id = rid → q.status = .rejected ∧ q.approved_by = some caller ∧
          q.approved_at = some now ∧ q.approval_notes = some notes) ∧
    (∀ q ∈ (handleApproveReject db rid .rejected sel caller now notes).requests,
        q.id ≠ rid → q ∈ db.requests) ∧
    (handleApproveReject db rid .rejected sel caller now notes).items = db.items ∧
    (handleApproveReject db rid .rejected sel caller now notes).logs =
      db.logs ++ [{ request_id := rid, action := "reject",
                    performed_by := caller, notes := notes }] := by
  refine ⟨?_, ?_, ?_, ?_⟩
  · intro q hq hqid
    simp only [handleApproveReject, List.mem_map] at hq
    obtain ⟨x, hx, rfl⟩ := hq
    by_cases h : x.id = rid
    · simp [h]
    · simp [h] at hqid
  · intro q hq hqne
    simp only [handleApproveReject, List.mem_map] at hq
    obtain ⟨x, hx, rfl⟩ := hq
    by_cases h : x.id = rid
    · simp [h] at hqne
    · simpa [h] using hx
  · cases sel <;> rfl
  · rfl

/-- Witness for C7 at `db0`: rejecting the pending `req0` leaves the
catalog untouched and logs exactly one 'reject' entry. -/
theorem c7_reject_frame_witness :
    (handleApproveReject db0 "req-1" .rejected none "admin-1" 7 "no").items = db0.items ∧
    (handleApproveReject db0 "req-1" .rejected none "admin-1" 7 "no").logs =
      db0.logs ++ [{ request_id := "req-1", action := "reject",
                     performed_by := "admin-1", notes := "no" }] :=
  ⟨(c7_reject_frame db0 "req-1" "admin-1" "no" 7 none req0
      (by decide) (by decide) (by decide)).2.2.1,
   (c7_reject_frame db0 "req-1" "admin-1" "no" 7 none req0
      (by decide) (by decide) (by decide)).2.2.2⟩

/-- C8: activity logs are append-only.  No caller passes the UPDATE or
DELETE policy on `activity_logs` (none exists), the approve/reject
operation extends the log by exactly one entry whose action is 'approve'
or 'reject', and the create operation either leaves the log unchanged (on
rejection) or extends it by exactly one 'request' entry. -/
theorem c8_logs_append_only (db : DB) (uid rid caller notes newId purpose : String)
    (now : Nat) (st : RequestStatus) (sel : Option SelectedRequest)
    (item : Item) (sT eT : Option Nat) (row : ActivityLog) :
    (activityLogsPolicy db uid .update row = false ∧
     activityLogsPolicy db uid .delete row = false) ∧
    (∃ e, (handleApproveReject db rid st sel caller now notes).logs = db.logs ++ [e] ∧
       (e.action = "approve" ∨ e.action = "reject")) ∧
    ((handleBorrowRequest db uid (some item) purpose sT eT newId now).2.logs = db.logs ∨
     ∃ e, (handleBorrowRequest db uid (some item) purpose sT eT newId now).2.logs
       = db.logs ++ [e] ∧ e.action = "request") := by
  refine ⟨⟨rfl, rfl⟩, ?_, ?_⟩
  · refine ⟨{ request_id := rid,
              action := if st == .approved then "approve" else "reject",
              performed_by := caller, notes := notes }, ?_, ?_⟩
    · cases st <;> cases sel <;> rfl
    · cases hb : (st == RequestStatus.approved) with
      | true => exact Or.inl (by simp [hb])
      | false => exact Or.inr (by simp [hb])
  · cases sT with
    | none => exact Or.inl rfl
    | some s =>
      cases eT with
      | none => exact Or.inl rfl
      | some e' =>
        by_cases hp : purpose = ""
        · exact Or.inl (by simp [handleBorrowRequest, hp])
        · have hp' : (purpose == "") = false := beq_eq_false_iff_ne.mpr hp
          by_cases ha : db.items.any (fun i => i.id == item.id)
          · refine Or.inr ⟨⟨newId, "request", uid, "Mengajukan peminjaman " ++ item.name⟩, ?_, rfl⟩
            simp [handleBorrowRequest, hp', ha]
          · simp only [Bool.not_eq_true] at ha
            exact Or.inl (by simp [handleBorrowRequest, hp', ha])

/-- C9: a successfully created request reads back with exactly the
start/end window supplied at creation and status 'pending'. -/
theorem c9_create_roundtrip (db : DB) (uid : String) (item : Item)
    (purpose : String) (st et : Nat) (newId : String) (now : Nat)
    (hfresh : ∀ r ∈ db.requests, r.id ≠ newId)
    (hp : purpose ≠ "")
    (hex : db.items.any (fun i => i.id == item.id) = true) :
    ((readRequest (handleBorrowRequest db uid (some item) purpose
        (some st) (some et) newId now).2 newId).map
      fun r => (r.start_time, r.end_time, r.status))
      = some (st, et, RequestStatus.pending) := by
  have hp' : (purpose == "") = false := beq_eq_false_iff_ne.mpr hp
  have hnone : db.requests.find? (fun r => r.id == newId) = none := by
    rw [List.find?_eq_none]
    intro x hx
    simpa using hfresh x hx
  simp [handleBorrowRequest, hp', hex, readRequest, List.find?_append, hnone]

/-- Witness for C9: the window 2025-01-10T08:00 .. 2025-01-10T10:00 (epoch
milliseconds) reads back unchanged with status pending. -/
theorem c9_create_roundtrip_witness :
    ((readRequest (handleBorrowRequest cdb "u1" (some citem) "Kuliah Pemrograman Web"
        (some 1736496000000) (some 1736503200000) "r1" 1736495000000).2 "r1").map
      fun r => (r.start_time, r.end_time, r.status))
      = some (1736496000000, 1736503200000, RequestStatus.pending) :=
  c9_create_roundtrip cdb "u1" citem "Kuliah Pemrograman Web"
    1736496000000 1736503200000 "r1" 1736495000000
    (by decide) (by decide) (by decide)
